import Mathlib

/-!
Verification of the aggregation-pipeline stage contract and the time
utilities of this repository.  The repository provides
src/mongo/db/pipeline/document_source.h (class declarations plus a few
inlined member functions) and src/mongo/util/time_support.cpp.  Everything
inlined in the header (DocumentSourceSort::getShardSource/getRouterSource,
DocumentSource::setPipelineStep/getPipelineStep) and the whole of
time_support.cpp is translated directly from the source; the bodies of the
remaining stage member functions live in .cpp files that are not part of the
repository snapshot, so those operations are modelled from the
specification, as noted on each definition.
-/

namespace Mongo

/-- Modelled from the spec: the Value data model of §3 (the Value class of
db/pipeline/value.h is not in the repository snapshot).  Tagged union of
scalars, arrays and sub-documents.  The numeric variants (int32/int64) are
collapsed into a single integer constructor, and double/decimal are omitted:
no claim below distinguishes numeric widths or uses floating point. -/
inductive Value where
  | null
  | boolean (b : Bool)
  | int (n : Int)
  | str (s : String)
  | date (millis : Int)
  | array (elements : List Value)
  | document (fields : List (String × Value))

/-- A document is an ordered list of named fields (spec §3, Document). -/
abbrev Document := List (String × Value)

/-- Modelled from the spec: §3 FieldPath (db/pipeline/field_path.h is not in
the repository snapshot): a non-empty sequence of field-name segments,
represented as a first segment plus the remaining segments. -/
structure FieldPath where
  head : String
  tail : List String

/-- Look up a field by name in an ordered field list (first match wins;
duplicate names are rejected on construction per spec §3). -/
def getField : Document → String → Option Value
  | [], _ => none
  | (f, v) :: rest, name => if f = name then some v else getField rest name

/-- Modelled from the spec: §3 FieldPath application — "path application over
a document returns either a concrete Value or missing"; traversal through a
non-document value yields missing (none). -/
def getPathAux : Document → String → List String → Option Value
  | d, f, [] => getField d f
  | d, f, f2 :: rest =>
    match getField d f with
    | some (Value.document d2) => getPathAux d2 f2 rest
    | _ => none

/-- Replace the value of field `name` in place (preserving field order); if
the field is absent, append it. -/
def setField : Document → String → Value → Document
  | [], name, v => [(name, v)]
  | (f, w) :: rest, name, v =>
    if f = name then (f, v) :: rest else (f, w) :: setField rest name v

/-- Modelled from the spec: the "partial deep clone along a path" of §3 and
§4.6 (DocumentSourceUnwind::clonePath's body is not in the repository
snapshot): every sub-document along the path is rebuilt and the final field
is set to the given value; untouched subtrees are shared.  In this pure
embedding the clone is the functional update. -/
def setPathAux : Document → String → List String → Value → Document
  | d, f, [], v => setField d f v
  | d, f, f2 :: rest, v =>
    match getField d f with
    | some (Value.document d2) => setField d f (Value.document (setPathAux d2 f2 rest v))
    | _ => d

/-- Evaluate a field path against a document (spec §3). -/
def Document.getPath (d : Document) (p : FieldPath) : Option Value :=
  getPathAux d p.head p.tail

/-- Partial deep clone of a document with the field at the path set (spec §3
and §4.6). -/
def Document.setPath (d : Document) (p : FieldPath) (v : Value) : Document :=
  setPathAux d p.head p.tail v

inductive UnwindError where
  | unwindTypeError

/-- Modelled from the spec: §4.6 Unwind, behaviour for one input document D
(the bodies of DocumentSourceUnwind::eof/advance/getCurrent/clonePath in
document_source.cpp are not in the repository snapshot).  "Evaluate the path
against D.  If the value is missing or null, emit nothing for this D.  If it
is an empty array, likewise dropped.  If it is a non-array, UnwindTypeError.
Otherwise, for each element v of the array, produce a partial deep clone of D
[...] and the final field at the path is set to v.  Emission order is the
array's element order." -/
def unwindOne (p : FieldPath) (d : Document) : Except UnwindError (List Document) :=
  match Document.getPath d p with
  | none => Except.ok []
  | some Value.null => Except.ok []
  | some (Value.array []) => Except.ok []
  | some (Value.array vs) => Except.ok (vs.map (fun v => Document.setPath d p v))
  | some _ => Except.error UnwindError.unwindTypeError

inductive StageError where
  | exhaustedError

/-- Modelled from the spec: the stage iteration state of §4.1 and §3 (the
bodies of DocumentSource::advance/dispose and of the concrete stages'
eof/advance/getCurrent in the pipeline .cpp files are not in the repository
snapshot).  `stream` holds the documents from the stage's current position
onward — its head, when present, is the document the stage is positioned
on; `disposed` records that dispose() has been called; `resourceHeld` models
any held external resource (lock, cursor). -/
structure Stage where
  stream : List Document
  disposed : Bool
  resourceHeld : Bool

/-- Modelled from the spec: "eof() → bool: true iff no further documents will
ever be produced.  Stable once true."; after dispose() "eof is true". -/
def Stage.eof (s : Stage) : Bool :=
  s.disposed || s.stream.isEmpty

/-- Modelled from the spec: "advance() → bool: move to the next document;
returns false iff eof is now true"; after dispose() "no further documents
are emitted". -/
def Stage.advance (s : Stage) : Stage × Bool :=
  if s.disposed then (s, false)
  else
    match s.stream with
    | [] => (s, false)
    | _ :: rest => ({ s with stream := rest }, !rest.isEmpty)

/-- Modelled from the spec: "getCurrent() → Document: the document the stage
is currently positioned on.  Fails with ExhaustedError if eof." -/
def Stage.getCurrent (s : Stage) : Except StageError Document :=
  match s.stream, s.disposed with
  | d :: _, false => Except.ok d
  | _, _ => Except.error StageError.exhaustedError

/-- Modelled from the spec: "dispose(): idempotent; after this call eof is
true and any held external resource (lock, cursor) is released." -/
def Stage.dispose (s : Stage) : Stage :=
  { s with disposed := true, resourceHeld := false }

/-- One observation call of the iteration protocol (getCurrent() does not
change the stage's state). -/
inductive StageOp where
  | advanceCall
  | getCurrentCall

/-- Run a sequence of advance()/getCurrent() calls against a stage and return
the resulting stage state. -/
def Stage.runOps : List StageOp → Stage → Stage
  | [], s => s
  | StageOp.advanceCall :: rest, s => Stage.runOps rest (Stage.advance s).1
  | StageOp.getCurrentCall :: rest, s => Stage.runOps rest s

/-- A non-owning reference to a predecessor stage (the raw `DocumentSource *`
of the header, line 210), represented by an opaque identifier. -/
abbrev StageRef := Nat

/-- The per-stage base state declared in document_source.h (lines 202-226):
the predecessor `pSource`, the diagnostic `step` and the explain counter
`nRowsOut` (the expression-context handle carries no state any claim here
reads, and is omitted). -/
structure DocumentSourceBase where
  pSource : Option StageRef
  step : Int
  nRowsOut : Int

/-- Modelled from the spec: the DocumentSource constructor (document_source.cpp
is not in the repository snapshot).  The header documents that
getPipelineStep() "returns the step number, or -1 if it has never been set"
and that pSource starts unset. -/
def DocumentSource.construct : DocumentSourceBase :=
  { pSource := none, step := -1, nRowsOut := 0 }

inductive SetSourceError where
  | alreadyBoundError
  | notASinkError

/-- Modelled from the spec: the default DocumentSource::setSource
(document_source.cpp is not in the repository snapshot) — "setSource(Stage):
attach a predecessor; fails with AlreadyBoundError on second call"; header:
"The default implementation of setSource() sets this [...].  The default is
to verify() if this has already been set."  The pair returned is the state
after the call and the error, if any; a failed call leaves the state
unchanged. -/
def DocumentSource.setSource (s : DocumentSourceBase) (p : StageRef) :
    DocumentSourceBase × Option SetSourceError :=
  match s.pSource with
  | some _ => (s, some SetSourceError.alreadyBoundError)
  | none => ({ s with pSource := some p }, none)

/-- The stage kinds relevant to the setSource contract: `basic` stages
inherit the default DocumentSource::setSource; DocumentSourceBsonArray (the
array source of spec §4.2) overrides it. -/
inductive AnyStage where
  | basic (s : DocumentSourceBase)
  | bsonArray (s : DocumentSourceBase)

/-- Modelled from the spec: §4.2 ArraySource — "setSource is forbidden (fails
NotASinkError)" (DocumentSourceBsonArray::setSource's body is not in the
repository snapshot; the header, lines 206-208, says source stages override
setSource to verify()). -/
def AnyStage.setSource : AnyStage → StageRef → AnyStage × Option SetSourceError
  | AnyStage.basic s, p =>
    let r := DocumentSource.setSource s p
    (AnyStage.basic r.1, r.2)
  | AnyStage.bsonArray s, _ => (AnyStage.bsonArray s, some SetSourceError.notASinkError)

/-- Configuration of a successor stage, as far as the coalesce rules for
Limit and Skip inspect it (spec §4.6): a following Limit with bound n, a
following Skip with count k, or any other stage. -/
inductive StageDesc where
  | limit (n : Int)
  | skip (k : Int)
  | other

/-- Modelled from the spec: §4.6 Limit — "Holds a positive integer N.  Passes
through at most N documents then reports eof."  (DocumentSourceLimit's
eof/advance/getCurrent bodies are not in the repository snapshot; the header
holds `long long limit; long long count;`.)  The list returned is the
complete output of the stage over the given input: after it, the stage
reports eof. -/
def DocumentSourceLimit.emit : Int → Int → List Document → List Document
  | _, _, [] => []
  | n, count, d :: rest =>
    if n ≤ count then [] else d :: DocumentSourceLimit.emit n (count + 1) rest

/-- Modelled from the spec: §4.6 — "coalesce with a following Limit fuses:
limit = min(self.limit, next.limit)" (DocumentSourceLimit::coalesce's body is
not in the repository snapshot).  `some` is a successful fuse carrying the
fused bound; `none` means coalesce returned false. -/
def DocumentSourceLimit.coalesce (self : Int) (next : StageDesc) : Option Int :=
  match next with
  | StageDesc.limit m => some (min self m)
  | _ => none

/-- Modelled from the spec: §4.6 Skip — "Holds a non-negative integer K.
Drops the first K documents (by actually pulling and discarding), then acts
as a pass-through."  (DocumentSourceSkip's eof/advance/getCurrent/skipper
bodies are not in the repository snapshot.)  The list returned is the
complete output of the stage over the given input. -/
def DocumentSourceSkip.emit : Int → Int → List Document → List Document
  | _, _, [] => []
  | k, count, d :: rest =>
    if count < k then DocumentSourceSkip.emit k (count + 1) rest else d :: rest

/-- Modelled from the spec: §4.6 — "coalesce with a following Skip sums"
(DocumentSourceSkip::coalesce's body is not in the repository snapshot). -/
def DocumentSourceSkip.coalesce (self : Int) (next : StageDesc) : Option Int :=
  match next with
  | StageDesc.skip k2 => some (self + k2)
  | _ => none

/-- The sort stage's configuration (document_source.h lines 1016-1019): the
parallel vectors vSortKey (sort-key field paths) and vAscending.  The
iteration-state members (populated, count, documents, docIterator, pCurrent)
are omitted: the two split accessors the claim is about read no member at
all. -/
structure DocumentSourceSort where
  vSortKey : List FieldPath
  vAscending : List Bool

/-- From the source, document_source.h line 958:
`virtual intrusive_ptr<DocumentSource> getShardSource() { return NULL; }` —
the NULL pointer is modelled as `none`. -/
def DocumentSourceSort.getShardSource (_ : DocumentSourceSort) :
    Option DocumentSourceSort :=
  none

/-- From the source, document_source.h line 959:
`virtual intrusive_ptr<DocumentSource> getRouterSource() { return this; }` —
`some s` models the non-null pointer to the stage itself. -/
def DocumentSourceSort.getRouterSource (s : DocumentSourceSort) :
    Option DocumentSourceSort :=
  some s

/-- From the source, document_source.h lines 1262-1264:
`inline void DocumentSource::setPipelineStep(int s) { step = s; }` -/
def DocumentSource.setPipelineStep (ds : DocumentSourceBase) (s : Int) :
    DocumentSourceBase :=
  { ds with step := s }

/-- From the source, document_source.h lines 1266-1268:
`inline int DocumentSource::getPipelineStep() const { return step; }` -/
def DocumentSource.getPipelineStep (ds : DocumentSourceBase) : Int :=
  ds.step

/-- The C whitespace class skipped by sscanf's %d directive. -/
def isSpaceChar (c : Char) : Bool :=
  c = ' ' || c = '\t' || c = '\n' || c = '\r' || c = '\x0b' || c = '\x0c'

def skipWhitespace : List Char → List Char
  | [] => []
  | c :: rest => if isSpaceChar c then skipWhitespace rest else c :: rest

/-- Greedily consume decimal digits, accumulating their value.  Returns the
accumulated number and the unconsumed remainder.  (C's %d on an
out-of-range number is undefined behaviour; the embedding computes the
unbounded value.) -/
def readDigits : Nat → List Char → Nat × List Char
  | acc, [] => (acc, [])
  | acc, c :: rest =>
    if c.isDigit then readDigits (acc * 10 + (c.toNat - 48)) rest
    else (acc, c :: rest)

/-- After an optional sign has been consumed, %d requires at least one digit;
otherwise it is a matching failure. -/
def scanSignedDigits : Bool → List Char → Option (Int × List Char)
  | _, [] => none
  | neg, c :: rest =>
    if c.isDigit then
      let r := readDigits 0 (c :: rest)
      some (if neg then -(r.1 : Int) else (r.1 : Int), r.2)
    else none

/-- One %d conversion of C sscanf: skip whitespace, then an optionally signed
decimal integer. -/
def scanIntToken (s : List Char) : Option (Int × List Char) :=
  match skipWhitespace s with
  | '-' :: rest => scanSignedDigits true rest
  | '+' :: rest => scanSignedDigits false rest
  | other => scanSignedDigits false other

/-- `sscanf(str.c_str(), "%d:%d", &hh, &mm) == 2` of time_support.cpp line
83: a %d conversion, a literal `:` that must match the very next character,
and a second %d conversion; trailing characters are ignored.  `none` models a
return value other than 2. -/
def sscanfHHMM (s : String) : Option (Int × Int) :=
  match scanIntToken s.data with
  | none => none
  | some (hh, r1) =>
    match r1 with
    | ':' :: r2 =>
      match scanIntToken r2 with
      | none => none
      | some (mm, _) => some (hh, mm)
    | _ => none

/-- A boost::posix_time::ptime built as `ptime(currentDate(), hours(hh) +
minutes(mm))`: an (abstract) date and a time-of-day offset in minutes. -/
structure Ptime where
  date : Int
  timeOfDayMinutes : Int

/-- From the source, time_support.cpp lines 79-95 (toPointInTime).  `today`
stands for the value of currentDate() at the call.  The C code returns false
(here: none) when sscanf does not assign both fields or when `(hh / 24) ||
(mm / 60)` is nonzero, C division truncating toward zero (Int.tdiv);
otherwise it stores `ptime(currentDate(), hours(hh) + minutes(mm))` and
returns true (here: some). -/
def toPointInTime (today : Int) (str : String) : Option Ptime :=
  match sscanfHHMM str with
  | none => none
  | some (hh, mm) =>
    if hh.tdiv 24 ≠ 0 ∨ mm.tdiv 60 ≠ 0 then none
    else some { date := today, timeOfDayMinutes := hh * 60 + mm }

/-- The state read by the clock functions of time_support.cpp: the timeval
filled in by gettimeofday (tv_sec seconds, tv_usec microseconds), the global
`jsTime_virtual_skew` (line 33, initialized to 0) and the thread-local
`jsTime_virtual_thread_skew` (line 34, a thread_specific_ptr that is null
until jsTimeVirtualThreadSkew is called on the thread). -/
structure ClockEnv where
  tv_sec : Nat
  tv_usec : Nat
  jsTime_virtual_skew : Int
  jsTime_virtual_thread_skew : Option Int

/-- From the source, time_support.cpp lines 181-183. -/
def getJSTimeVirtualSkew (e : ClockEnv) : Int :=
  e.jsTime_virtual_skew

/-- From the source, time_support.cpp lines 188-193: returns the stored
thread-local skew, or 0 when the thread-specific pointer is null. -/
def getJSTimeVirtualThreadSkew (e : ClockEnv) : Int :=
  match e.jsTime_virtual_thread_skew with
  | some k => k
  | none => 0

/-- From the source, time_support.cpp lines 185-187. -/
def jsTimeVirtualThreadSkew (e : ClockEnv) (k : Int) : ClockEnv :=
  { e with jsTime_virtual_thread_skew := some k }

/-- From the source, time_support.cpp lines 178-180. -/
def jsTimeVirtualSkew (e : ClockEnv) (k : Int) : ClockEnv :=
  { e with jsTime_virtual_skew := k }

/-- From the source, time_support.cpp lines 229-233 (the gettimeofday
branch): `((unsigned long long)tv.tv_sec) * 1000 + tv.tv_usec / 1000`,
computed in unsigned 64-bit arithmetic. -/
def curTimeMillis64 (e : ClockEnv) : Nat :=
  (e.tv_sec * 1000 + e.tv_usec / 1000) % 2 ^ 64

/-- From the source, time_support.cpp lines 234-239 (the gettimeofday
branch): `((unsigned long long) tv.tv_sec * 1000) + t + getJSTimeVirtualSkew()
+ getJSTimeVirtualThreadSkew()` with `t = tv.tv_usec / 1000`; the signed
skews are converted to unsigned 64-bit, so the sum is taken mod 2^64. -/
def jsTime (e : ClockEnv) : Nat :=
  Int.toNat ((((e.tv_sec * 1000 + e.tv_usec / 1000 : Nat) : Int)
    + getJSTimeVirtualSkew e + getJSTimeVirtualThreadSkew e) % (2 ^ 64 : Int))

theorem getField_setField (d : Document) (f : String) (v : Value) :
    getField (setField d f v) f = some v := by
  induction d with
  | nil => simp [setField, getField]
  | cons fv rest ih =>
    rcases fv with ⟨g, w⟩
    by_cases h : g = f
    · simp [setField, getField, h]
    · simp [setField, getField, h, ih]

theorem getPathAux_setPathAux :
    ∀ (rest : List String) (d : Document) (f : String) (w v : Value),
      getPathAux d f rest = some w →
      getPathAux (setPathAux d f rest v) f rest = some v := by
  intro rest
  induction rest with
  | nil =>
    intro d f w v _
    simp [getPathAux, setPathAux, getField_setField]
  | cons f2 r ih =>
    intro d f w v h
    rw [getPathAux] at h
    cases hg : getField d f with
    | none => rw [hg] at h; cases h
    | some u =>
      cases u with
      | document d2 =>
        rw [hg] at h
        rw [getPathAux, setPathAux, hg, getField_setField]
        exact ih d2 f2 w v h
      | null => rw [hg] at h; cases h
      | boolean b => rw [hg] at h; cases h
      | int n => rw [hg] at h; cases h
      | str s => rw [hg] at h; cases h
      | date m => rw [hg] at h; cases h
      | array vs => rw [hg] at h; cases h

/-- C2: for every input document D to an unwind stage with field path p: a
missing or null value at p emits nothing; an empty array emits nothing; a
non-array value fails with UnwindTypeError; an array emits one partial deep
clone of D per element, in element order, with the field at p set to that
element (so re-evaluating p on each emitted clone yields the element). -/
theorem claim_C2 (p : FieldPath) (d : Document) :
    (Document.getPath d p = none → unwindOne p d = Except.ok [])
  ∧ (Document.getPath d p = some Value.null → unwindOne p d = Except.ok [])
  ∧ (Document.getPath d p = some (Value.array []) → unwindOne p d = Except.ok [])
  ∧ (∀ v, Document.getPath d p = some v → v ≠ Value.null →
      (∀ vs, v ≠ Value.array vs) →
      unwindOne p d = Except.error UnwindError.unwindTypeError)
  ∧ (∀ vs, Document.getPath d p = some (Value.array vs) →
      unwindOne p d = Except.ok (vs.map (fun v => Document.setPath d p v))
      ∧ ∀ v ∈ vs, Document.getPath (Document.setPath d p v) p = some v) := by
  refine ⟨?_, ?_, ?_, ?_, ?_⟩
  · intro h; simp [unwindOne, h]
  · intro h; simp [unwindOne, h]
  · intro h; simp [unwindOne, h]
  · intro v h hnull harr
    cases v with
    | null => exact absurd rfl hnull
    | array vs => exact absurd rfl (harr vs)
    | boolean b => simp [unwindOne, h]
    | int n => simp [unwindOne, h]
    | str s => simp [unwindOne, h]
    | date m => simp [unwindOne, h]
    | document fs => simp [unwindOne, h]
  · intro vs h
    constructor
    · cases vs with
      | nil => simp [unwindOne, h]
      | cons v0 vtl => simp [unwindOne, h]
    · intro v _
      exact getPathAux_setPathAux p.tail d p.head (Value.array vs) v h

/-- Witness for C2: unwinding "t" over concrete documents — a two-element
array yields two clones in order, a missing field, a null and an empty array
yield nothing, and a scalar fails with UnwindTypeError. -/
theorem claim_C2_witness :
    unwindOne ⟨"t", []⟩ [("id", Value.int 1), ("t", Value.array [Value.int 10, Value.int 20])]
      = Except.ok [[("id", Value.int 1), ("t", Value.int 10)],
          [("id", Value.int 1), ("t", Value.int 20)]]
  ∧ unwindOne ⟨"t", []⟩ [("id", Value.int 2)] = Except.ok []
  ∧ unwindOne ⟨"t", []⟩ [("id", Value.int 3), ("t", Value.null)] = Except.ok []
  ∧ unwindOne ⟨"t", []⟩ [("id", Value.int 4), ("t", Value.array [])] = Except.ok []
  ∧ unwindOne ⟨"t", []⟩ [("id", Value.int 5), ("t", Value.int 7)]
      = Except.error UnwindError.unwindTypeError := by
  refine ⟨?_, ?_, ?_, ?_, ?_⟩
  · exact ((claim_C2 ⟨"t", []⟩
      [("id", Value.int 1), ("t", Value.array [Value.int 10, Value.int 20])]).2.2.2.2
      [Value.int 10, Value.int 20] rfl).1
  · exact (claim_C2 ⟨"t", []⟩ _).1 rfl
  · exact (claim_C2 ⟨"t", []⟩ _).2.1 rfl
  · exact (claim_C2 ⟨"t", []⟩ _).2.2.1 rfl
  · exact (claim_C2 ⟨"t", []⟩ _).2.2.2.1 (Value.int 7) rfl
      (fun h => Value.noConfusion h) (fun vs h => Value.noConfusion h)

theorem limit_emit_eq_take (n : Int) (xs : List Document) :
    ∀ c : Int, DocumentSourceLimit.emit n c xs = xs.take (n - c).toNat := by
  induction xs with
  | nil => intro c; simp [DocumentSourceLimit.emit]
  | cons d rest ih =>
    intro c
    rw [DocumentSourceLimit.emit]
    by_cases h : n ≤ c
    · have h0 : (n - c).toNat = 0 := by omega
      simp [h, h0]
    · have h1 : (n - c).toNat = (n - (c + 1)).toNat + 1 := by omega
      simp [h, h1, ih (c + 1)]

/-- C3: coalescing adjacent Limit stages with bounds N and M succeeds and
fuses to a Limit with bound min(N, M); a Limit stage with bound N emits
exactly the first min(N, length of input) documents of its input (its output
is that prefix, of that length) and then reports eof. -/
theorem claim_C3 (n m : Int) (xs : List Document) (hn : 0 < n) (hm : 0 < m) :
    DocumentSourceLimit.coalesce n (StageDesc.limit m) = some (min n m)
  ∧ DocumentSourceLimit.emit n 0 xs = xs.take (min n.toNat xs.length)
  ∧ (DocumentSourceLimit.emit n 0 xs).length = min n.toNat xs.length := by
  have he : DocumentSourceLimit.emit n 0 xs = xs.take n.toNat := by
    rw [limit_emit_eq_take n xs 0]
    norm_num
  refine ⟨rfl, ?_, ?_⟩
  · by_cases hle : n.toNat ≤ xs.length
    · have hmin : min n.toNat xs.length = n.toNat := by omega
      rw [he, hmin]
    · have hmin : min n.toNat xs.length = xs.length := by omega
      rw [he, hmin, List.take_length, List.take_of_length_le (by omega)]
  · rw [he, List.length_take]

/-- Witness for C3: Limit 2 next to Limit 5 fuses to Limit 2, and Limit 2
over a three-document input emits exactly the first two documents. -/
theorem claim_C3_witness :
    DocumentSourceLimit.coalesce 2 (StageDesc.limit 5) = some 2
  ∧ DocumentSourceLimit.emit 2 0
      [[("a", Value.int 1)], [("a", Value.int 2)], [("a", Value.int 3)]]
      = [[("a", Value.int 1)], [("a", Value.int 2)]] := by
  have h := claim_C3 2 5
    [[("a", Value.int 1)], [("a", Value.int 2)], [("a", Value.int 3)]]
    (by norm_num) (by norm_num)
  constructor
  · rw [h.1]
    norm_num
  · rw [h.2.1]
    rfl

theorem skip_emit_eq_drop (k : Int) (xs : List Document) :
    ∀ c : Int, DocumentSourceSkip.emit k c xs = xs.drop (k - c).toNat := by
  induction xs with
  | nil => intro c; simp [DocumentSourceSkip.emit]
  | cons d rest ih =>
    intro c
    rw [DocumentSourceSkip.emit]
    by_cases h : c < k
    · have h1 : (k - c).toNat = (k - (c + 1)).toNat + 1 := by omega
      simp [h, h1, ih (c + 1)]
    · have h0 : (k - c).toNat = 0 := by omega
      simp [h, h0]

/-- C5: a Skip stage with non-negative count K emits exactly its input with
the first K documents removed, in the original order (so an input of at most
K documents yields nothing); coalescing adjacent Skip stages with counts K1
and K2 succeeds, yielding a single Skip with count K1 + K2. -/
theorem claim_C5 (k k1 k2 : Int) (xs : List Document) (hk : 0 ≤ k) :
    DocumentSourceSkip.emit k 0 xs = xs.drop k.toNat
  ∧ (xs.length ≤ k.toNat → DocumentSourceSkip.emit k 0 xs = [])
  ∧ DocumentSourceSkip.coalesce k1 (StageDesc.skip k2) = some (k1 + k2) := by
  have he : DocumentSourceSkip.emit k 0 xs = xs.drop k.toNat := by
    rw [skip_emit_eq_drop k xs 0]
    norm_num
  refine ⟨he, ?_, rfl⟩
  intro hlen
  rw [he, List.drop_eq_nil_of_le hlen]

/-- Witness for C5: Skip 2 over a three-document input emits only the third
document, Skip 5 over it emits nothing, and Skip 1 next to Skip 3 fuses to
Skip 4. -/
theorem claim_C5_witness :
    DocumentSourceSkip.emit 2 0
      [[("a", Value.int 1)], [("a", Value.int 2)], [("a", Value.int 3)]]
      = [[("a", Value.int 3)]]
  ∧ DocumentSourceSkip.emit 5 0
      [[("a", Value.int 1)], [("a", Value.int 2)], [("a", Value.int 3)]]
      = []
  ∧ DocumentSourceSkip.coalesce 1 (StageDesc.skip 3) = some 4 := by
  have h2 := claim_C5 2 1 3
    [[("a", Value.int 1)], [("a", Value.int 2)], [("a", Value.int 3)]]
    (by norm_num)
  have h5 := claim_C5 5 1 3
    [[("a", Value.int 1)], [("a", Value.int 2)], [("a", Value.int 3)]]
    (by norm_num)
  refine ⟨?_, h5.2.1 (by norm_num), ?_⟩
  · rw [h2.1]
    rfl
  · rw [h2.2.2]
    norm_num

theorem stage_advance_fst_disposed (s : Stage) :
    (Stage.advance s).1.disposed = s.disposed := by
  rcases s with ⟨st, dsp, r⟩
  cases dsp <;> cases st <;> simp [Stage.advance]

theorem stage_runOps_disposed (ops : List StageOp) (s : Stage) :
    (Stage.runOps ops s).disposed = s.disposed := by
  induction ops generalizing s with
  | nil => rfl
  | cons op rest ih =>
    cases op with
    | advanceCall =>
      rw [Stage.runOps, ih, stage_advance_fst_disposed]
    | getCurrentCall =>
      rw [Stage.runOps, ih]

theorem stage_getCurrent_of_disposed (s : Stage) (h : s.disposed = true) :
    Stage.getCurrent s = Except.error StageError.exhaustedError := by
  rcases s with ⟨st, dsp, r⟩
  simp only at h
  subst h
  cases st <;> simp [Stage.getCurrent]

theorem stage_advance_of_disposed (s : Stage) (h : s.disposed = true) :
    Stage.advance s = (s, false) := by
  unfold Stage.advance
  simp [h]

/-- C1: for every stage state, dispose() is idempotent; after dispose() every
subsequent call to eof() returns true and no further document is emitted
(advance() returns false and leaves the state unchanged, and getCurrent()
fails), regardless of how many advance()/getCurrent() calls preceded the
dispose(). -/
theorem claim_C1 (s : Stage) (ops ops2 : List StageOp) :
    Stage.dispose (Stage.dispose (Stage.runOps ops s)) = Stage.dispose (Stage.runOps ops s)
  ∧ Stage.eof (Stage.runOps ops2 (Stage.dispose (Stage.runOps ops s))) = true
  ∧ Stage.advance (Stage.dispose (Stage.runOps ops s))
      = (Stage.dispose (Stage.runOps ops s), false)
  ∧ Stage.getCurrent (Stage.runOps ops2 (Stage.dispose (Stage.runOps ops s)))
      = Except.error StageError.exhaustedError := by
  have hd : (Stage.dispose (Stage.runOps ops s)).disposed = true := rfl
  have hd2 : (Stage.runOps ops2 (Stage.dispose (Stage.runOps ops s))).disposed = true := by
    rw [stage_runOps_disposed]
    exact hd
  refine ⟨rfl, ?_, stage_advance_of_disposed _ hd, stage_getCurrent_of_disposed _ hd2⟩
  simp [Stage.eof, hd2]

/-- C7: for every stage state, getCurrent() called when eof() is true fails
with ExhaustedError; when eof() is false it returns the document the stage is
currently positioned on (the head of its remaining stream). -/
theorem claim_C7 (s : Stage) :
    (Stage.eof s = true → Stage.getCurrent s = Except.error StageError.exhaustedError)
  ∧ (Stage.eof s = false →
      ∃ d, s.stream.head? = some d ∧ Stage.getCurrent s = Except.ok d) := by
  rcases s with ⟨st, dsp, r⟩
  cases dsp <;> cases st <;> simp [Stage.eof, Stage.getCurrent]

/-- Witness for C7: a concrete exhausted stage fails with ExhaustedError and a
concrete non-eof stage returns the document it is positioned on. -/
theorem claim_C7_witness :
    Stage.getCurrent { stream := [], disposed := false, resourceHeld := false }
      = Except.error StageError.exhaustedError
  ∧ Stage.getCurrent
      { stream := [[("a", Value.int 1)]], disposed := false, resourceHeld := false }
      = Except.ok [("a", Value.int 1)] := by
  constructor
  · exact (claim_C7 ⟨[], false, false⟩).1 rfl
  · obtain ⟨d, hd, hc⟩ := (claim_C7 ⟨[[("a", Value.int 1)]], false, false⟩).2 rfl
    simp only [List.head?] at hd
    cases hd
    exact hc

/-- C4 counterexample: DocumentSourceBsonArray (the array source, spec §4.2)
is a stage whose FIRST setSource call already fails, with NotASinkError and
without binding anything — refuting "for every stage, the first call to
setSource succeeds and binds the predecessor". -/
theorem claim_C4_counterexample :
    AnyStage.setSource (AnyStage.bsonArray DocumentSource.construct) 0
      = (AnyStage.bsonArray DocumentSource.construct, some SetSourceError.notASinkError) :=
  rfl

/-- C4 (amended): for every stage that uses the default setSource (a stage
that takes a predecessor), the first call succeeds and binds the
predecessor, and every later call fails with AlreadyBoundError leaving the
originally bound predecessor unchanged; the source stages
(DocumentSourceBsonArray) instead reject every setSource call with
NotASinkError. -/
theorem claim_C4 (s0 s1 : DocumentSourceBase) (p q : StageRef)
    (h0 : s0.pSource = none) (h1 : s1.pSource = some q) :
    DocumentSource.setSource s0 p = ({ s0 with pSource := some p }, none)
  ∧ DocumentSource.setSource s1 p = (s1, some SetSourceError.alreadyBoundError)
  ∧ (DocumentSource.setSource s1 p).1.pSource = some q
  ∧ AnyStage.setSource (AnyStage.bsonArray s0) p
      = (AnyStage.bsonArray s0, some SetSourceError.notASinkError) := by
  refine ⟨?_, ?_, ?_, ?_⟩ <;>
    simp [DocumentSource.setSource, AnyStage.setSource, h0, h1]

/-- Witness for C4 (amended): on a freshly constructed stage the first
setSource call binds stage 7; on a stage already bound to stage 5 a further
call fails with AlreadyBoundError. -/
theorem claim_C4_witness :
    DocumentSource.setSource DocumentSource.construct 7
      = ({ DocumentSource.construct with pSource := some 7 }, none)
  ∧ DocumentSource.setSource { pSource := some 5, step := -1, nRowsOut := 0 } 7
      = ({ pSource := some 5, step := -1, nRowsOut := 0 },
          some SetSourceError.alreadyBoundError) := by
  have h := claim_C4 DocumentSource.construct
    { pSource := some 5, step := -1, nRowsOut := 0 } 7 5 rfl rfl
  exact ⟨h.1, h.2.1⟩

/-- C6: for every Sort stage, getShardSource() returns null (none) and
getRouterSource() returns the stage itself, so the whole sort runs on the
router/coordinator side of the split. -/
theorem claim_C6 (s : DocumentSourceSort) :
    DocumentSourceSort.getShardSource s = none
  ∧ DocumentSourceSort.getRouterSource s = some s :=
  ⟨rfl, rfl⟩

/-- C8: on a freshly constructed DocumentSource (setPipelineStep never
called) getPipelineStep() returns -1; after setPipelineStep(s) it returns s. -/
theorem claim_C8 (ds : DocumentSourceBase) (s : Int) :
    DocumentSource.getPipelineStep DocumentSource.construct = -1
  ∧ DocumentSource.getPipelineStep (DocumentSource.setPipelineStep ds s) = s :=
  ⟨rfl, rfl⟩

theorem tdiv24_eq_zero_iff (a : Int) : a.tdiv 24 = 0 ↔ a.natAbs < 24 := by
  constructor
  · intro h
    cases a with
    | ofNat m =>
      simp [Int.tdiv, Int.natAbs] at h ⊢
      omega
    | negSucc m =>
      simp [Int.tdiv, Int.natAbs] at h ⊢
      omega
  · intro h
    cases a with
    | ofNat m =>
      simp [Int.tdiv, Int.natAbs] at h ⊢
      omega
    | negSucc m =>
      simp [Int.tdiv, Int.natAbs] at h ⊢
      omega

theorem tdiv60_eq_zero_iff (a : Int) : a.tdiv 60 = 0 ↔ a.natAbs < 60 := by
  constructor
  · intro h
    cases a with
    | ofNat m =>
      simp [Int.tdiv, Int.natAbs] at h ⊢
      omega
    | negSucc m =>
      simp [Int.tdiv, Int.natAbs] at h ⊢
      omega
  · intro h
    cases a with
    | ofNat m =>
      simp [Int.tdiv, Int.natAbs] at h ⊢
      omega
    | negSucc m =>
      simp [Int.tdiv, Int.natAbs] at h ⊢
      omega

/-- C9: toPointInTime returns false when the string does not scan as two
':'-separated integers hh and mm, or when hh is 24 or more, or when mm is 60
or more; when it returns true the stored point in time is today's date with a
time-of-day offset of hh hours plus mm minutes, and hh is at most 23 and mm
at most 59. -/
theorem claim_C9 (today : Int) (str : String) :
    (sscanfHHMM str = none → toPointInTime today str = none)
  ∧ (∀ hh mm, sscanfHHMM str = some (hh, mm) → 24 ≤ hh →
      toPointInTime today str = none)
  ∧ (∀ hh mm, sscanfHHMM str = some (hh, mm) → 60 ≤ mm →
      toPointInTime today str = none)
  ∧ (∀ pt, toPointInTime today str = some pt →
      ∃ hh mm, sscanfHHMM str = some (hh, mm) ∧ hh ≤ 23 ∧ mm ≤ 59 ∧
        pt = { date := today, timeOfDayMinutes := hh * 60 + mm }) := by
  refine ⟨?_, ?_, ?_, ?_⟩
  · intro h
    rw [toPointInTime, h]
  · intro hh mm hscan h24
    rw [toPointInTime, hscan]
    have hne : hh.tdiv 24 ≠ 0 := by
      intro h0
      have := (tdiv24_eq_zero_iff hh).1 h0
      omega
    simp [hne]
  · intro hh mm hscan h60
    rw [toPointInTime, hscan]
    have hne : mm.tdiv 60 ≠ 0 := by
      intro h0
      have := (tdiv60_eq_zero_iff mm).1 h0
      omega
    simp [hne]
  · intro pt h
    cases hscan : sscanfHHMM str with
    | none =>
      simp only [toPointInTime, hscan] at h
      exact Option.noConfusion h
    | some hm =>
      rcases hm with ⟨hh, mm⟩
      simp only [toPointInTime, hscan] at h
      split_ifs at h with hc
      push_neg at hc
      have h24 := (tdiv24_eq_zero_iff hh).1 hc.1
      have h60 := (tdiv60_eq_zero_iff mm).1 hc.2
      exact ⟨hh, mm, rfl, by omega, by omega, (Option.some.inj h).symm⟩

/-- Witness for C9: "25:00" (hour out of range) and "07:60" (minute out of
range) are rejected, "banana" does not scan, and "13:05" is accepted as 13
hours 5 minutes past midnight of today's date. -/
theorem claim_C9_witness :
    toPointInTime 0 "25:00" = none
  ∧ toPointInTime 0 "07:60" = none
  ∧ toPointInTime 0 "banana" = none
  ∧ toPointInTime 0 "13:05" = some { date := 0, timeOfDayMinutes := 785 } := by
  refine ⟨?_, ?_, ?_, rfl⟩
  · exact (claim_C9 0 "25:00").2.1 25 0 rfl (by norm_num)
  · exact (claim_C9 0 "07:60").2.2.1 7 60 rfl (by norm_num)
  · exact (claim_C9 0 "banana").1 rfl

/-- C10: jsTime() is the gettimeofday wall-clock time in milliseconds since
the epoch plus the global virtual skew plus the thread-local virtual skew (in
unsigned 64-bit arithmetic); the thread-local skew reads as 0 for any thread
that never called jsTimeVirtualThreadSkew; and with both skews at their
defaults jsTime() equals curTimeMillis64(). -/
theorem claim_C10 (e : ClockEnv) :
    jsTime e
      = Int.toNat (((curTimeMillis64 e : Int) + getJSTimeVirtualSkew e
          + getJSTimeVirtualThreadSkew e) % (2 ^ 64 : Int))
  ∧ (e.jsTime_virtual_thread_skew = none → getJSTimeVirtualThreadSkew e = 0)
  ∧ (e.jsTime_virtual_skew = 0 → e.jsTime_virtual_thread_skew = none →
      jsTime e = curTimeMillis64 e) := by
  have hMi : (2 : Int) ^ 64 = 18446744073709551616 := by norm_num
  have hMn : (2 : Nat) ^ 64 = 18446744073709551616 := by norm_num
  refine ⟨?_, ?_, ?_⟩
  · unfold jsTime curTimeMillis64
    rw [hMi, hMn]
    push_cast
    omega
  · intro h
    simp [getJSTimeVirtualThreadSkew, h]
  · intro h1 h2
    unfold jsTime curTimeMillis64 getJSTimeVirtualSkew getJSTimeVirtualThreadSkew
    rw [h1, h2, hMi, hMn]
    push_cast
    omega

/-- Witness for C10: in a state with both skews at their defaults (global
skew 0, thread-local pointer unset), jsTime equals curTimeMillis64 and the
thread-local skew reads as 0. -/
theorem claim_C10_witness :
    jsTime ⟨12, 3456, 0, none⟩ = curTimeMillis64 ⟨12, 3456, 0, none⟩
  ∧ getJSTimeVirtualThreadSkew ⟨12, 3456, 0, none⟩ = 0 := by
  exact ⟨(claim_C10 ⟨12, 3456, 0, none⟩).2.2 rfl rfl,
    (claim_C10 ⟨12, 3456, 0, none⟩).2.1 rfl⟩

end Mongo
